import Mathlib

set_option maxRecDepth 8192

/-!
Verification of the WatchDogAI retrieval-and-recommendation pipeline.

The development shallowly embeds the core of `src/watchdog/embeddings.py`
and `src/watchdog/analyzer.py`:

* `LogEntry` normalization (structured-content extraction, searchable text,
  chroma metadata flattening);
* the embedding store operations `embed_logs` and `search_similar_logs`,
  with the external embedding capability and vector store taken as an
  explicit environment and every capability invocation recorded in an
  event trace;
* `RecommendationParser.parse` with its JSON coercions and fallback rule;
* the alert gate `_should_send_slack_alert` and the analysis drivers
  `analyze_logs` / `analyze_recent_logs`.

Python library primitives that the code calls (`json.loads`, `float` on
strings, `re.match` with the fixed syslog pattern) are passed in as a
`PyLib` record of abstract functions; everything written in the repository
itself is translated directly.
-/

/-- A parsed JSON value, the result type of the Python `json.loads` call.
Python distinguishes int and float; both satisfy every `isinstance`
check the code performs on numbers, so a single numeric constructor
carrying a rational is used. -/
inductive Json where
  | null : Json
  | bool (b : Bool) : Json
  | num (q : ℚ) : Json
  | str (s : String) : Json
  | arr (xs : List Json) : Json
  | obj (kvs : List (String × Json)) : Json

/-- Python exception kinds relevant to the embedded code: `ValueError`
(caught by the parser), `TypeError` and `AttributeError` (not caught). -/
inductive PyError where
  | valueError : PyError
  | typeError : PyError
  | attributeError : PyError
deriving DecidableEq

/- ### Python string primitives, kernel-reducible -/

/-- Whitespace characters removed by the Python `str.strip` call
(ASCII subset; exotic unicode spaces are not exercised by any claim). -/
def isPySpace (c : Char) : Bool :=
  c = ' ' || c = '\t' || c = '\n' || c = '\r' || c = '\x0b' || c = '\x0c'

/-- Strip from both ends of a character list. -/
def trimChars (l : List Char) : List Char :=
  ((l.dropWhile isPySpace).reverse.dropWhile isPySpace).reverse

/-- Python `str.strip()`. -/
def pyStrip (s : String) : String := ⟨trimChars s.data⟩

/-- Python `str.startswith`. -/
def strStarts (s pre : String) : Bool := pre.data.isPrefixOf s.data

/-- Python `str.endswith`. -/
def strEnds (s suf : String) : Bool := suf.data.isSuffixOf s.data

/-- First occurrence of `sep` in `l`: the part before and the part after. -/
def findSplit (sep : List Char) : List Char → Option (List Char × List Char)
  | [] => none
  | c :: rest =>
    if sep.isPrefixOf (c :: rest) then some ([], (c :: rest).drop sep.length)
    else (findSplit sep rest).map (fun p => (c :: p.1, p.2))

/-- Fuel-driven splitting on a separator, keeping empty pieces,
matching the Python `str.split(sep)` semantics for a nonempty `sep`. -/
def pySplitAux (sep : List Char) : Nat → List Char → List (List Char)
  | 0, l => [l]
  | fuel + 1, l =>
    match findSplit sep l with
    | none => [l]
    | some (pre, post) => pre :: pySplitAux sep fuel post

/-- Python `s.split(sep)` for a nonempty separator. -/
def pySplit (s sep : String) : List String :=
  (pySplitAux sep.data (s.data.length + 1) s.data).map (fun l => ⟨l⟩)

/-- Python `s[:n]`. -/
def strTake (s : String) (n : Nat) : String := ⟨s.data.take n⟩

/-- Python `str.lower()` (ASCII). -/
def pyLower (s : String) : String := ⟨s.data.map Char.toLower⟩

/-- Python `sep.join(parts)`. -/
def joinSep (sep : String) : List String → String
  | [] => ""
  | [x] => x
  | x :: xs => x ++ sep ++ joinSep sep xs

/- ### Rendering Python values as text -/

/-- Best-effort `str()` for a number: exact on integers; the CPython float
repr, which no claim inspects, is abstracted for non-integers. -/
def numRepr (q : ℚ) : String :=
  if q.den = 1 then (if q.num < 0 then "-" ++ Nat.repr q.num.natAbs else Nat.repr q.num.natAbs)
  else (if q.num < 0 then "-" ++ Nat.repr q.num.natAbs else Nat.repr q.num.natAbs)
    ++ "/" ++ Nat.repr q.den

/-- Python `str()` of a JSON value. Container reprs are abstracted; the
code only ever applies this to scalar values in the claims exercised. -/
def pyStr : Json → String
  | .null => "None"
  | .bool b => if b then "True" else "False"
  | .num q => numRepr q
  | .str s => s
  | .arr _ => "<list>"
  | .obj _ => "<dict>"

/- ### The Python library surface used by the code -/

/-- Python library calls the embedded code performs, taken as abstract
deterministic functions: `loads` is `json.loads` (`none` models a
`JSONDecodeError`); `strToFloat` is `float` applied to a string (`none`
models a `ValueError`); `reMatchSyslog` is `re.match` with the fixed
pattern, returning the four captured groups. -/
structure PyLib where
  loads : String → Option Json
  strToFloat : String → Option ℚ
  reMatchSyslog : String → Option (String × String × String × String)

/-- Python `dict.get` on the assoc list produced by `json.loads`; the
last binding wins, matching duplicate-key semantics of the json module. -/
def jsonGet (kvs : List (String × Json)) (k : String) : Option Json :=
  (kvs.reverse.find? (fun p => p.1 = k)).map (fun p => p.2)

/-- Python `data.get(k, d)`. -/
def getD (kvs : List (String × Json)) (k : String) (d : Json) : Json :=
  (jsonGet kvs k).getD d

/-- Python `float(v)` on a JSON value: numbers and booleans convert,
strings go through the runtime float parser and raise `ValueError` when
non-numeric, anything else raises `TypeError`. -/
def pyFloat (lib : PyLib) : Json → Except PyError ℚ
  | .num q => .ok q
  | .bool b => .ok (if b then 1 else 0)
  | .str s =>
    match lib.strToFloat s with
    | some q => .ok q
    | none => .error .valueError
  | _ => .error .typeError

/-- Python truthiness of a JSON value. -/
def jsonTruthy : Json → Bool
  | .null => false
  | .bool b => b
  | .num q => decide (q ≠ 0)
  | .str s => decide (s ≠ "")
  | .arr xs => !xs.isEmpty
  | .obj kvs => !kvs.isEmpty

/- ### SecurityRecommendation and the response parser -/

/-- The `SecurityRecommendation` dataclass of `analyzer.py`. The fields
`issue`, `recommendation`, `affected_systems` and `log_evidence` receive
whatever JSON values `data.get` produced (Python does not enforce the
annotations); `severity`, `category` and `timeline` are passed through
`str(...).lower()` and so are always strings, and `confidence` through
`float(...)`. -/
structure SecurityRecommendation where
  issue : Json
  recommendation : Json
  severity : String
  confidence : ℚ
  category : String
  affected_systems : List Json
  timeline : String
  log_evidence : List Json

/-- The code-fence stripping of `RecommendationParser.parse`:
`json_text = text.strip()`, then the first `json.split` extraction when
the text opens a markdown code block. -/
def extract_json (text : String) : String :=
  let json_text := pyStrip text
  if strStarts json_text "```json" then
    pyStrip (((pySplit ((pySplit json_text "```json").getD 1 "") "```").getD 0 ""))
  else if strStarts json_text "```" then
    pyStrip (((pySplit ((pySplit json_text "```").getD 1 "") "```").getD 0 ""))
  else json_text

/-- The fallback recommendation built in the `except` branch of
`RecommendationParser.parse` for unparseable responses. -/
def fallback_recommendation (text : String) : SecurityRecommendation :=
  { issue := .str "Failed to parse LLM response"
    recommendation := .str "Review logs manually for potential issues"
    severity := "low"
    confidence := 1/10
    category := "unknown"
    affected_systems := []
    timeline := "medium-term"
    log_evidence := [.str (if 200 < text.length then strTake text 200 ++ "..." else text)] }

/-- Python `data.get(k, default) if isinstance(data.get(k), list) else []`. -/
def asList (v : Option Json) : List Json :=
  match v with
  | some (.arr xs) => xs
  | _ => []

/-- `RecommendationParser.parse`: extract the JSON payload, decode it and
coerce the fields. A `JSONDecodeError` or a `ValueError` (a non-numeric
confidence string) is caught and yields the fallback recommendation; a
`TypeError` from `float` or an `AttributeError` from `.get` on a
non-object propagates. -/
def parse (lib : PyLib) (text : String) : Except PyError SecurityRecommendation :=
  let json_text := extract_json text
  match lib.loads json_text with
  | none => .ok (fallback_recommendation text)
  | some (.obj kvs) =>
    match pyFloat lib (getD kvs "confidence" (.num (1/2))) with
    | .error .valueError => .ok (fallback_recommendation text)
    | .error e => .error e
    | .ok c =>
      .ok { issue := getD kvs "issue" (.str "Unknown issue")
            recommendation := getD kvs "recommendation" (.str "No recommendation provided")
            severity := pyLower (pyStr (getD kvs "severity" (.str "medium")))
            confidence := c
            category := pyLower (pyStr (getD kvs "category" (.str "unknown")))
            affected_systems := asList (jsonGet kvs "affected_systems")
            timeline := pyLower (pyStr (getD kvs "timeline" (.str "medium-term")))
            log_evidence := asList (jsonGet kvs "log_evidence") }
  | some _ => .error .attributeError

example : pySplit "```a```b" "```" = ["", "a", "b"] := by decide
example : extract_json " ```json\n \x7b\"a\": 1\x7d \n``` " = "\x7b\"a\": 1\x7d" := by decide
example : pyStrip "  ab " = "ab" := by decide

/- ### LogEntry normalization (`embeddings.py`) -/

/-- A normalized log entry. `id` and `timestamp` are produced by
`uuid.uuid4()` and `datetime.now()` in `__init__` and are modelled as
inputs of the constructor; `timestamp` is kept in its rendered
isoformat. -/
structure LogEntry where
  id : String
  raw_log : String
  timestamp : String
  source : String
  metadata : List (String × Json)
  structured_data : Option Json
  searchable_text : String

/-- `LogEntry._parse_structured_content`: whole-line JSON when the
stripped line opens with a brace (a decode error falls through), else
the syslog pattern match, else nothing. -/
def parse_structured_content (lib : PyLib) (raw_log : String) : Option Json :=
  let viaJson : Option Json :=
    if strStarts (pyStrip raw_log) "\x7b" then lib.loads raw_log else none
  match viaJson with
  | some v => some v
  | none =>
    match lib.reMatchSyslog raw_log with
    | some (ts, host, service, msg) =>
      some (.obj [("timestamp", .str ts), ("hostname", .str host),
                  ("service", .str service), ("message", .str msg)])
    | none => none

/-- `LogEntry._create_searchable_text`: the raw line, each scalar entry
of the structured data as `"key: value"` (Python `isinstance(value,
(str, int, float))`, which booleans also satisfy), and the source tag,
joined with `" | "`. -/
def create_searchable_text (raw_log : String) (structured_data : Option Json)
    (source : String) : String :=
  let structParts : List String :=
    match structured_data with
    | some v =>
      if jsonTruthy v then
        match v with
        | .obj kvs =>
          kvs.filterMap (fun kv =>
            match kv.2 with
            | .str s => some (kv.1 ++ ": " ++ s)
            | .num q => some (kv.1 ++ ": " ++ numRepr q)
            | .bool b => some (kv.1 ++ ": " ++ (if b then "True" else "False"))
            | _ => none)
        | _ => []
      else []
    | none => []
  joinSep " | " (([raw_log] ++ structParts) ++ ["source: " ++ source])

/-- The `LogEntry.__init__` constructor: strips the raw line, derives the
structured data and the searchable text. -/
def LogEntry.make (lib : PyLib) (id timestamp : String) (raw_log : String)
    (source : String) (metadata : List (String × Json)) : LogEntry :=
  let raw := pyStrip raw_log
  let sd := parse_structured_content lib raw
  { id := id, raw_log := raw, timestamp := timestamp, source := source,
    metadata := metadata, structured_data := sd,
    searchable_text := create_searchable_text raw sd source }

/-- `LogEntry.to_chroma_metadata`: base `timestamp`/`source` fields, the
scalar structured fields under a `struct_` key, the scalar custom
metadata under a `meta_` key. The `elif isinstance(value, str)` branch
with the truncation comment in the source is unreachable, because the
first branch already accepts every string; the model reflects that. A
truthy non-dict structured value would raise `AttributeError` on
`.items()`, modelled as `none`. -/
def to_chroma_metadata (e : LogEntry) : Option (List (String × Json)) :=
  let base : List (String × Json) :=
    [("timestamp", .str e.timestamp), ("source", .str e.source)]
  let metaPart : List (String × Json) :=
    e.metadata.filterMap (fun kv =>
      match kv.2 with
      | .str s => some ("meta_" ++ kv.1, .str s)
      | .num q => some ("meta_" ++ kv.1, .num q)
      | .bool b => some ("meta_" ++ kv.1, .bool b)
      | _ => none)
  match e.structured_data with
  | some v =>
    if jsonTruthy v then
      match v with
      | .obj kvs =>
        some (base ++ kvs.filterMap (fun kv =>
          match kv.2 with
          | .str s => some ("struct_" ++ kv.1, .str s)
          | .num q => some ("struct_" ++ kv.1, .num q)
          | .bool b => some ("struct_" ++ kv.1, .bool b)
          | _ => none) ++ metaPart)
      | _ => none
    else some (base ++ metaPart)
  | none => some (base ++ metaPart)

/- ### The embedding store (`LogEmbeddings`) -/

/-- One raw result row of the vector store query: document text, flat
metadata, and the raw distance. -/
structure RawHit where
  document : String
  metadata : List (String × Json)
  distance : ℚ

/-- One formatted result of `search_similar_logs`. -/
structure SimilarLog where
  document : String
  metadata : List (String × Json)
  similarity_score : ℚ

/-- External capabilities of `LogEmbeddings`: the embedding model and
the chroma collection, as abstract deterministic functions; an `error`
result models a raised exception. -/
structure StoreEnv where
  embedQuery : String → Except String (List ℚ)
  storeQuery : List ℚ → Int → Except String (List RawHit)
  embedDocuments : List String → Except String (List (List ℚ))
  storeAdd : Nat → Except String Unit

/-- Capability invocations recorded while running an operation. -/
inductive Event where
  | embedQuery (q : String) : Event
  | storeQuery (n_results : Int) : Event
  | embedDocuments (count : Nat) : Event
  | storeAdd (count : Nat) : Event
  | llmInvoke : Event
  | slackAlert : Event
  | slackSummary : Event
deriving DecidableEq

/-- `LogEmbeddings.search_similar_logs`: embed the query, query the
collection, convert each row to a similarity-scored record; any raised
exception is caught and yields the empty list. The second component is
the trace of capability invocations performed. -/
def search_similar_logs (env : StoreEnv) (query : String) (n_results : Int) :
    List SimilarLog × List Event :=
  match env.embedQuery query with
  | .error _ => ([], [.embedQuery query])
  | .ok emb =>
    match env.storeQuery emb n_results with
    | .error _ => ([], [.embedQuery query, .storeQuery n_results])
    | .ok hits =>
      (hits.map (fun h =>
        { document := h.document, metadata := h.metadata,
          similarity_score := 1 - h.distance }),
       [.embedQuery query, .storeQuery n_results])

/-- `LogEmbeddings.embed_logs`: refuse an empty batch before touching any
capability, otherwise build documents, metadata and ids, embed the
documents and add everything to the collection; exceptions are caught
and reported as `false`. -/
def embed_logs (env : StoreEnv) (entries : List LogEntry) : Bool × List Event :=
  if entries.isEmpty then (false, [])
  else
    let documents := entries.map (fun e => e.searchable_text)
    let metadatas := entries.map to_chroma_metadata
    if metadatas.any (fun m => m.isNone) then (false, [])
    else
      match env.embedDocuments documents with
      | .error _ => (false, [.embedDocuments documents.length])
      | .ok _ =>
        match env.storeAdd entries.length with
        | .error _ => (false, [.embedDocuments documents.length, .storeAdd entries.length])
        | .ok _ => (true, [.embedDocuments documents.length, .storeAdd entries.length])

/- ### The analyzer (`analyzer.py`) -/

/-- `LogAnalyzer._should_send_slack_alert`: nothing is sent without a
configured notifier; then the confidence gate at the hard-coded 0.5
threshold, then high or critical severity, then the medium-severity
security special case. -/
def should_send_slack_alert (notifier_enabled : Bool)
    (r : SecurityRecommendation) : Bool :=
  if !notifier_enabled then false
  else if r.confidence < 1/2 then false
  else if r.severity ∈ (["high", "critical"] : List String) then true
  else if r.severity = "medium" && r.category = "security" then true
  else false

/-- Three-decimal rendering of a similarity score, as the Python format
`:.3f`; CPython rounds ties to even, this model rounds ties away from
zero, a corner no claim exercises. -/
def format3f (q : ℚ) : String :=
  let a : ℚ := |q| * 1000 + 1/2
  let m : ℕ := a.floor.toNat
  let frac := m % 1000
  let pad := if frac < 10 then "00" else if frac < 100 then "0" else ""
  (if q < 0 then "-" else "") ++ Nat.repr (m / 1000) ++ "." ++ pad ++ Nat.repr frac

/-- `LogAnalyzer._format_logs_for_analysis`: number the hits from 1 and
render timestamp, source, similarity and document of each. -/
def format_logs_for_analysis (logs : List SimilarLog) : String :=
  joinSep "\n" (logs.enum.map (fun p =>
    "[" ++ Nat.repr (p.1 + 1) ++ "] Timestamp: "
      ++ pyStr ((jsonGet p.2.metadata "timestamp").getD (.str "unknown"))
      ++ " | Source: "
      ++ pyStr ((jsonGet p.2.metadata "source").getD (.str "unknown"))
      ++ " | Similarity: " ++ format3f p.2.similarity_score
      ++ "\n    Log: " ++ p.2.document ++ "\n"))

/-- The fixed analysis prompt template of `LogAnalyzer.__init__`,
instantiated with the context and the rendered log entries. -/
def analysis_prompt (context log_entries : String) : String :=
  "You are WatchDogAI, an expert DevOps and Security analyst. Analyze the following log entries and provide a structured security/operations recommendation.\n\nCONTEXT: "
  ++ context
  ++ "\n\nLOG ENTRIES TO ANALYZE:\n"
  ++ log_entries
  ++ "\n\nYour task:\n1. Identify patterns, anomalies, or security/operational issues\n2. Assess the severity and potential impact\n3. Provide specific, actionable recommendations\n4. Consider the broader system context\n\nRespond with ONLY a JSON object in this exact format:\n\x7b\n    \"issue\": \"Brief description of the identified issue\",\n    \"recommendation\": \"Specific, actionable steps to address the issue\",\n    \"severity\": \"low|medium|high|critical\",\n    \"confidence\": 0.0-1.0,\n    \"category\": \"security|performance|availability|compliance|configuration\",\n    \"affected_systems\": [\"list\", \"of\", \"affected\", \"systems\"],\n    \"timeline\": \"immediate|short-term|medium-term|long-term\",\n    \"log_evidence\": [\"specific log entries that support this analysis\"]\n\x7d\n\nFocus on:\n- Security threats (failed logins, unauthorized access, suspicious patterns)\n- System performance issues (high CPU, memory, disk usage)\n- Service availability problems (connection failures, timeouts)\n- Configuration issues (misconfigurations, deprecated settings)\n- Compliance violations (access without proper authentication)\n\nBe concise but specific. If no significant issues are found, indicate low severity."

/-- The environment of a `LogAnalyzer`: its embedding store, the
configured retrieval chunk size, the generation capability (an `error`
models a raised exception), the Python library surface used by the
response parser, and whether a Slack notifier is configured and
enabled. -/
structure AnalyzerEnv where
  store : StoreEnv
  chunkSize : Int
  llm : String → Except String String
  lib : PyLib
  slackEnabled : Bool

/-- `LogAnalyzer.analyze_logs`: retrieve similar logs; with no hits the
operation succeeds with no recommendation before any generation call;
otherwise render the prompt, invoke the generation capability, parse the
response, and possibly alert. Every raised exception is caught and
yields no recommendation. -/
def analyze_logs (A : AnalyzerEnv) (query context : String)
    (send_slack_alert : Bool) : Option SecurityRecommendation × List Event :=
  let sr := search_similar_logs A.store query A.chunkSize
  if sr.1.isEmpty then (none, sr.2)
  else
    let prompt := analysis_prompt context (format_logs_for_analysis sr.1)
    match A.llm prompt with
    | .error _ => (none, sr.2 ++ [.llmInvoke])
    | .ok response =>
      match parse A.lib response with
      | .error _ => (none, sr.2 ++ [.llmInvoke])
      | .ok rec =>
        if send_slack_alert && should_send_slack_alert A.slackEnabled rec then
          (some rec, sr.2 ++ [.llmInvoke, .slackAlert])
        else (some rec, sr.2 ++ [.llmInvoke])

/-- The fixed query list of `LogAnalyzer.analyze_recent_logs`. -/
def common_queries : List String :=
  ["failed login authentication error",
   "database connection timeout error",
   "high memory CPU usage performance",
   "access denied forbidden unauthorized",
   "SSL certificate TLS connection error"]

/-- The accumulating loop of `analyze_recent_logs`, generic in the query
list it walks: analyze each query in order and keep the recommendations
whose confidence exceeds 0.3. -/
def batch_queries (A : AnalyzerEnv) (context : String) (send : Bool) :
    List String → List SecurityRecommendation × List Event
  | [] => ([], [])
  | q :: qs =>
    let res := analyze_logs A q context send
    let rest := batch_queries A context send qs
    match res.1 with
    | some r =>
      ((if 3/10 < r.confidence then r :: rest.1 else rest.1), res.2 ++ rest.2)
    | none => (rest.1, res.2 ++ rest.2)

/-- `LogAnalyzer.analyze_recent_logs`: run the fixed query list with a
shared context, then send a summary when alerts are enabled, the result
list is nonempty and a notifier is configured. -/
def analyze_recent_logs (A : AnalyzerEnv) (context : String) (send : Bool) :
    List SecurityRecommendation × List Event :=
  let out := batch_queries A context send common_queries
  if send && !out.1.isEmpty && A.slackEnabled then
    (out.1, out.2 ++ [.slackSummary])
  else out

/- ### Concrete library and capability environments -/

/-- A library surface on which no string decodes as JSON. -/
def lib0 : PyLib :=
  { loads := fun _ => none, strToFloat := fun _ => none,
    reMatchSyslog := fun _ => none }

/-- A 300-character response. -/
def s300 : String := ⟨List.replicate 300 'a'⟩

/-- A JSON object response whose confidence value is a non-numeric
string. -/
def c3text : String := "\x7b\"confidence\": \"high\", \"severity\": \"critical\"\x7d"

/-- The decoded fields of `c3text`. -/
def c3kvs : List (String × Json) :=
  [("confidence", .str "high"), ("severity", .str "critical")]

/-- A library surface decoding exactly `c3text`; `float` fails on every
string, as it does on "high". -/
def lib_c3 : PyLib :=
  { loads := fun s => if s = c3text then some (.obj c3kvs) else none,
    strToFloat := fun _ => none, reMatchSyslog := fun _ => none }

/-- An empty JSON object response. -/
def mtext : String := "\x7b\x7d"

/-- A library surface decoding exactly the empty object. -/
def lib_m : PyLib :=
  { loads := fun s => if s = mtext then some (.obj []) else none,
    strToFloat := fun _ => none, reMatchSyslog := fun _ => none }

/-- A 150-character field value. -/
def s150 : String := ⟨List.replicate 150 'a'⟩

/-- A structured log line: one scalar field, one nested object, one long
string field. -/
def c4kvs : List (String × Json) :=
  [("level", .str "ERROR"), ("nested", .obj [("a", .num 1)]), ("msg", .str s150)]

/-- The raw text of the structured log line. -/
def rawJson150 : String :=
  "\x7b\"level\": \"ERROR\", \"nested\": \x7b\"a\": 1\x7d, \"msg\": \"" ++ s150 ++ "\"\x7d"

/-- A library surface decoding exactly the structured log line. -/
def lib150 : PyLib :=
  { loads := fun s => if s = rawJson150 then some (.obj c4kvs) else none,
    strToFloat := fun _ => none, reMatchSyslog := fun _ => none }

/-- The normalized entry of the structured log line. -/
def entry150 : LogEntry :=
  LogEntry.make lib150 "id-0" "2026-01-01T00:00:00" rawJson150 "srv" []

/-- A store whose collection is empty: embedding succeeds, every query
returns no rows. -/
def env_empty : StoreEnv :=
  { embedQuery := fun _ => .ok [1], storeQuery := fun _ _ => .ok [],
    embedDocuments := fun _ => .ok [], storeAdd := fun _ => .ok () }

/-- A store whose capabilities are unreachable. -/
def env_fail : StoreEnv :=
  { embedQuery := fun _ => .error "capability unavailable",
    storeQuery := fun _ _ => .error "unreachable",
    embedDocuments := fun _ => .error "unreachable",
    storeAdd := fun _ => .error "unreachable" }

/-- An analyzer over the empty store. -/
def A_empty : AnalyzerEnv :=
  { store := env_empty, chunkSize := 10, llm := fun _ => .ok "ok",
    lib := lib0, slackEnabled := true }

/-- A recommendation with the given confidence, severity and category. -/
def sample_rec (conf : ℚ) (sev cat : String) : SecurityRecommendation :=
  { issue := .str "issue", recommendation := .str "rec", severity := sev,
    confidence := conf, category := cat, affected_systems := [],
    timeline := "immediate", log_evidence := [] }

/-- Decision rule of the specification alert gate over a policy
min_confidence, steps 1 to 4 in order. -/
def spec_should_alert (min_confidence : ℚ) (r : SecurityRecommendation) : Bool :=
  if r.confidence < min_confidence then false
  else if r.severity = "high" ∨ r.severity = "critical" then true
  else if r.severity = "medium" ∧ r.category = "security" then true
  else false

/- ### Theorems -/

/-- Claim C1: with a configured notifier and the hard-coded
min_confidence of 0.5, the alert gate decides exactly by the ordered
rule: sub-threshold confidence yields false, then high or critical
severity yields true, then medium security yields true, else false; in
particular 0.9/critical/performance alerts, 0.9/medium/performance does
not, 0.9/medium/security does, and 0.4/critical/security does not (the
confidence gate short-circuits severity). -/
theorem alert_gate_rule :
    (∀ r, should_send_slack_alert true r = spec_should_alert (1/2) r) ∧
    should_send_slack_alert true (sample_rec (9/10) "critical" "performance") = true ∧
    should_send_slack_alert true (sample_rec (9/10) "medium" "performance") = false ∧
    should_send_slack_alert true (sample_rec (9/10) "medium" "security") = true ∧
    should_send_slack_alert true (sample_rec (4/10) "critical" "security") = false := by
  refine ⟨fun r => ?_, ?_, ?_, ?_, ?_⟩
  · simp only [should_send_slack_alert, spec_should_alert, Bool.not_true,
      Bool.false_eq_true, if_false, List.mem_cons, List.mem_singleton,
      List.not_mem_nil, or_false, Bool.and_eq_true, decide_eq_true_eq]
  all_goals norm_num [should_send_slack_alert, sample_rec]
  all_goals decide

/-- Claim C2: when the response cannot be decoded as JSON after optional
fence stripping, `parse` does not raise: it returns the complete
fallback recommendation, whose single evidence entry is the first 200
characters of the raw response with an ellipsis appended exactly when
the response is longer than 200 characters. -/
theorem parse_fallback_on_unparseable :
    ∀ (lib : PyLib) (text : String), lib.loads (extract_json text) = none →
    parse lib text = .ok (fallback_recommendation text) ∧
    (fallback_recommendation text).severity = "low" ∧
    (fallback_recommendation text).confidence = 1/10 ∧
    (fallback_recommendation text).category = "unknown" ∧
    (fallback_recommendation text).affected_systems = [] ∧
    (fallback_recommendation text).timeline = "medium-term" ∧
    (fallback_recommendation text).log_evidence =
      [.str (if 200 < text.length then strTake text 200 ++ "..." else text)] := by
  intro lib text h
  refine ⟨?_, rfl, rfl, rfl, rfl, rfl, rfl⟩
  simp [parse, h]

/-- Witness for claim C2 at a concrete 300-character unparseable
response: the fallback is produced and its evidence entry has length
203 and ends in the ellipsis. -/
theorem parse_fallback_on_unparseable_witness :
    parse lib0 s300 = .ok (fallback_recommendation s300) ∧
    (fallback_recommendation s300).log_evidence = [.str (strTake s300 200 ++ "...")] ∧
    (strTake s300 200 ++ "...").length = 203 ∧
    strEnds (strTake s300 200 ++ "...") "..." = true := by
  obtain ⟨h1, _, _, _, _, _, h7⟩ := parse_fallback_on_unparseable lib0 s300 rfl
  refine ⟨h1, ?_, by decide, by decide⟩
  rw [h7, if_pos (by decide : 200 < s300.length)]

/-- Claim C7: the searchable text of a constructed entry is a pure
function of the raw line, its derived structured fields and the source:
two constructions differing only in the generated id and timestamp
yield byte-identical searchable text. -/
theorem searchable_text_deterministic :
    ∀ (lib : PyLib) (id1 ts1 id2 ts2 raw source : String)
      (meta : List (String × Json)),
    (LogEntry.make lib id1 ts1 raw source meta).searchable_text =
    (LogEntry.make lib id2 ts2 raw source meta).searchable_text :=
  fun _ _ _ _ _ _ _ _ => rfl

/-- Claim C10: an empty batch is refused before any capability call:
`embed_logs` returns `false` with an empty invocation trace, leaving
the collection unchanged. -/
theorem embed_logs_empty_false :
    ∀ env : StoreEnv, embed_logs env [] = (false, []) :=
  fun _ => rfl

/-- Claim C3 counterexample: a syntactically valid JSON object whose
confidence value is the non-numeric string "high" does not keep the
other supplied fields with confidence 0.5; instead `float` raises
`ValueError`, which the outer handler turns into the fallback
recommendation: confidence 0.1 and severity "low", the supplied
severity "critical" discarded. -/
theorem parse_nonnumeric_confidence_counterexample :
    parse lib_c3 c3text = .ok (fallback_recommendation c3text) ∧
    (fallback_recommendation c3text).confidence = 1/10 ∧
    ¬ ((fallback_recommendation c3text).confidence = 1/2) ∧
    ¬ ((fallback_recommendation c3text).severity = "critical") := by
  refine ⟨rfl, rfl, ?_, by decide⟩
  show ¬ ((1 : ℚ)/10 = 1/2)
  norm_num

/-- Claim C3 amended: for a decoded JSON object, confidence defaults to
0.5 only when the key is missing, the other supplied fields then being
coerced as described (severity, category and timeline lower-cased
through `str`, the list fields defaulting to empty when not arrays);
when the confidence value is a non-numeric string, the parser instead
returns the fallback recommendation. -/
theorem parse_confidence_amended :
    ∀ (lib : PyLib) (text : String) (kvs : List (String × Json)),
    lib.loads (extract_json text) = some (.obj kvs) →
    ((jsonGet kvs "confidence" = none →
      ∃ r, parse lib text = .ok r ∧ r.confidence = 1/2 ∧
        r.severity = pyLower (pyStr (getD kvs "severity" (.str "medium"))) ∧
        r.category = pyLower (pyStr (getD kvs "category" (.str "unknown"))) ∧
        r.timeline = pyLower (pyStr (getD kvs "timeline" (.str "medium-term"))) ∧
        r.issue = getD kvs "issue" (.str "Unknown issue") ∧
        r.recommendation = getD kvs "recommendation" (.str "No recommendation provided") ∧
        r.affected_systems = asList (jsonGet kvs "affected_systems") ∧
        r.log_evidence = asList (jsonGet kvs "log_evidence")) ∧
     (∀ s, jsonGet kvs "confidence" = some (.str s) → lib.strToFloat s = none →
        parse lib text = .ok (fallback_recommendation text))) := by
  intro lib text kvs hload
  constructor
  · intro hmiss
    refine ⟨{ issue := getD kvs "issue" (.str "Unknown issue"),
              recommendation := getD kvs "recommendation" (.str "No recommendation provided"),
              severity := pyLower (pyStr (getD kvs "severity" (.str "medium"))),
              confidence := 1/2,
              category := pyLower (pyStr (getD kvs "category" (.str "unknown"))),
              affected_systems := asList (jsonGet kvs "affected_systems"),
              timeline := pyLower (pyStr (getD kvs "timeline" (.str "medium-term"))),
              log_evidence := asList (jsonGet kvs "log_evidence") },
            ?_, rfl, rfl, rfl, rfl, rfl, rfl, rfl, rfl⟩
    simp [parse, hload, getD, hmiss, pyFloat]
  · intro s hconf hfloat
    simp [parse, hload, getD, hconf, pyFloat, hfloat]

/-- Witness for the amended claim C3: the empty object yields confidence
0.5, and the object with the string confidence "high" yields the
fallback. -/
theorem parse_confidence_amended_witness :
    (∃ r, parse lib_m mtext = .ok r ∧ r.confidence = 1/2) ∧
    parse lib_c3 c3text = .ok (fallback_recommendation c3text) := by
  constructor
  · obtain ⟨r, hr, hc, _⟩ := (parse_confidence_amended lib_m mtext [] rfl).1 rfl
    exact ⟨r, hr, hc⟩
  · exact (parse_confidence_amended lib_c3 c3text c3kvs rfl).2 "high" rfl rfl

/-- Claim C4 at the failing input: the stored metadata of the entry with
structured fields level/nested/msg carries the scalar fields under the
struct prefix and drops the nested object, as claimed, but keeps the
150-character string field whole — the truncation branch of the source
is dead code, so strings longer than 100 characters are not cut. -/
theorem to_chroma_metadata_no_truncation :
    ∃ md, to_chroma_metadata entry150 = some md ∧
      jsonGet md "struct_level" = some (.str "ERROR") ∧
      jsonGet md "struct_nested" = none ∧
      jsonGet md "struct_msg" = some (.str s150) ∧
      100 < s150.length := by
  refine ⟨_, rfl, rfl, rfl, rfl, by decide⟩

/-- Claim C5 counterexample: at n_results = 0 the retrieval operation
still invokes the embedding capability and then the vector store, the
claimed guard does not exist. -/
theorem search_nonpositive_k_counterexample :
    Event.embedQuery "q" ∈ (search_similar_logs env_empty "q" 0).2 ∧
    Event.storeQuery 0 ∈ (search_similar_logs env_empty "q" 0).2 := by
  constructor <;> decide

/-- Claim C5 amended: the retrieval operation has no nonpositive-k
guard: for every k ≤ 0 it still invokes the embedding capability first;
when the embedding fails the exception is absorbed into an empty
result, and when it succeeds the store is queried with that same k and
whatever rows it returns are returned, scored as one minus distance. -/
theorem search_nonpositive_k_amended :
    ∀ (env : StoreEnv) (q : String) (k : Int), k ≤ 0 →
    Event.embedQuery q ∈ (search_similar_logs env q k).2 ∧
    (∀ e, env.embedQuery q = .error e →
      (search_similar_logs env q k).1 = [] ∧
      (search_similar_logs env q k).2 = [.embedQuery q]) ∧
    (∀ emb, env.embedQuery q = .ok emb →
      Event.storeQuery k ∈ (search_similar_logs env q k).2 ∧
      ∀ hits, env.storeQuery emb k = .ok hits →
        (search_similar_logs env q k).1 = hits.map (fun h =>
          { document := h.document, metadata := h.metadata,
            similarity_score := 1 - h.distance })) := by
  intro env q k _
  refine ⟨?_, ?_, ?_⟩
  · cases h : env.embedQuery q with
    | error e => simp [search_similar_logs, h]
    | ok emb =>
      cases h2 : env.storeQuery emb k <;> simp [search_similar_logs, h, h2]
  · intro e he
    simp [search_similar_logs, he]
  · intro emb he
    constructor
    · cases h2 : env.storeQuery emb k <;> simp [search_similar_logs, he, h2]
    · intro hits h2
      simp [search_similar_logs, he, h2]

/-- Witness for the amended claim C5 at k = 0 over the empty store: the
embedding capability is invoked and the result is empty. -/
theorem search_nonpositive_k_amended_witness :
    Event.embedQuery "q" ∈ (search_similar_logs env_empty "q" 0).2 ∧
    (search_similar_logs env_empty "q" 0).1 = [] := by
  have h := search_nonpositive_k_amended env_empty "q" 0 (le_refl 0)
  refine ⟨h.1, ?_⟩
  have h2 := (h.2.2 [1] rfl).2 [] rfl
  simpa using h2

/-- Claim C6: when retrieval yields no hits, the analysis succeeds with
no recommendation — an outcome distinct from any recommendation record —
and the text-generation capability is never invoked. -/
theorem analyze_logs_empty_retrieval_none :
    ∀ (A : AnalyzerEnv) (q ctx : String) (send : Bool),
    (search_similar_logs A.store q A.chunkSize).1 = [] →
    (analyze_logs A q ctx send).1 = none ∧
    Event.llmInvoke ∉ (analyze_logs A q ctx send).2 := by
  intro A q ctx send h
  have heq : analyze_logs A q ctx send =
      (none, (search_similar_logs A.store q A.chunkSize).2) := by
    simp [analyze_logs, h]
  rw [heq]
  refine ⟨rfl, ?_⟩
  cases h1 : A.store.embedQuery q with
  | error e => simp [search_similar_logs, h1]
  | ok emb =>
    cases h2 : A.store.storeQuery emb A.chunkSize <;>
      simp [search_similar_logs, h1, h2]

/-- Witness for claim C6 over the analyzer with the empty store. -/
theorem analyze_logs_empty_retrieval_none_witness :
    (analyze_logs A_empty "q" "ctx" true).1 = none ∧
    Event.llmInvoke ∉ (analyze_logs A_empty "q" "ctx" true).2 :=
  analyze_logs_empty_retrieval_none A_empty "q" "ctx" true rfl

/-- Claim C8: a query against an empty collection succeeds with the
empty sequence of hits, never an error; and an infrastructure failure
of a capability is absorbed by the handler into an empty result rather
than escaping, so no-match is never reported as a failure. -/
theorem query_empty_collection_ok :
    (∀ (env : StoreEnv) (q : String) (k : Int) (emb : List ℚ),
      env.embedQuery q = .ok emb → env.storeQuery emb k = .ok [] →
      (search_similar_logs env q k).1 = []) ∧
    (∀ (env : StoreEnv) (q : String) (k : Int) (e : String),
      env.embedQuery q = .error e → (search_similar_logs env q k).1 = []) := by
  constructor
  · intro env q k emb h1 h2
    simp [search_similar_logs, h1, h2]
  · intro env q k e h1
    simp [search_similar_logs, h1]

/-- Witness for claim C8: the empty store yields an empty hit sequence,
and so does the unreachable store. -/
theorem query_empty_collection_ok_witness :
    (search_similar_logs env_empty "any text" 5).1 = [] ∧
    (search_similar_logs env_fail "any text" 5).1 = [] :=
  ⟨query_empty_collection_ok.1 env_empty "any text" 5 [1] rfl rfl,
   query_empty_collection_ok.2 env_fail "any text" 5 "capability unavailable" rfl⟩

/-- Claim C9: the batch driver analyzes its queries independently in the
given order and returns exactly the recommendations whose confidence
exceeds 0.3, in input order, omitting failed and sub-threshold entries;
`analyze_recent_logs` applies this to the fixed five-query list with the
shared context. -/
theorem batch_ordered_filter :
    ∀ (A : AnalyzerEnv) (ctx : String) (send : Bool),
    (∀ qs : List String,
      (batch_queries A ctx send qs).1 =
        qs.filterMap (fun q =>
          match (analyze_logs A q ctx send).1 with
          | some r => if 3/10 < r.confidence then some r else none
          | none => none)) ∧
    (analyze_recent_logs A ctx send).1 =
      common_queries.filterMap (fun q =>
        match (analyze_logs A q ctx send).1 with
        | some r => if 3/10 < r.confidence then some r else none
        | none => none) := by
  intro A ctx send
  have key : ∀ qs : List String,
      (batch_queries A ctx send qs).1 =
        qs.filterMap (fun q =>
          match (analyze_logs A q ctx send).1 with
          | some r => if 3/10 < r.confidence then some r else none
          | none => none) := by
    intro qs
    induction qs with
    | nil => rfl
    | cons q qs ih =>
      simp only [batch_queries, List.filterMap_cons]
      cases h : (analyze_logs A q ctx send).1 with
      | none => simpa [h] using ih
      | some r =>
        by_cases hc : (3 : ℚ)/10 < r.confidence <;> simp [h, hc, ih]
  refine ⟨key, ?_⟩
  rw [← key common_queries]
  simp only [analyze_recent_logs]
  split <;> rfl
